import Mathlib

/-!
Shallow embedding of the OAuth token-lifecycle core of
`src/scripts/server-src/auth/spotifyAuth.ts` (class `SpotifyAuth`).

Conventions of the embedding:
* Time is an `Int` of milliseconds since the epoch, passed explicitly where
  the source calls `Date.now()`.
* The token file on disk is a `Store` value; filesystem faults the source
  catches (`readFileSync` throwing, unparsable JSON) are explicit
  constructors.  Write and unlink faults, which the source also catches and
  only logs, are not modelled: `saveTokens` and the deletion in `clearTokens`
  succeed.
* The single HTTP POST a call can make to the token endpoint is modelled by
  passing its outcome as an argument (`Except Unit _`, where `.error ()`
  stands for any 4xx/5xx response or network fault), and every operation
  reports in `tokenCalls` how many requests to the token endpoint it made.
* JavaScript `null`/absent query parameters and optional JSON fields become
  `Option String`; JavaScript truthiness of such a value (`if (error)`,
  `if (!code)`, `a || b`) is `jsTruthy` / `jsOr`, under which both absence
  and the empty string are falsy, exactly as in the source.
-/

namespace SpotifyAuth

/-- Persisted token record: interface `TokenData`, spotifyAuth.ts lines 24-30. -/
structure TokenData where
  access_token : String
  refresh_token : String
  expires_at : Int
  token_type : String
  scope : String
deriving DecidableEq, Repr

/-- Observable states of the token file at `tokenPath`.  `unreadable` is an
existing file whose read throws, `malformed` an existing file whose contents
`JSON.parse` rejects, `record d` a file holding the serialized record `d`. -/
inductive Store where
  | missing
  | unreadable
  | malformed
  | record (d : TokenData)
deriving DecidableEq, Repr

/-- In-memory view produced by `loadTokens` (lines 53-63) starting from the
constructor's `tokenData = null`: a missing file leaves it `null`, a read or
parse fault is caught and sets it `null`, a well-formed file is parsed.  The
function is total: no store state makes it throw to the caller. -/
def loadTokens : Store → Option TokenData
  | .missing => none
  | .unreadable => none
  | .malformed => none
  | .record d => some d

/-- State of one `SpotifyAuth` instance: the private field `tokenData`
together with the token file it persists to. -/
structure AuthState where
  tokenData : Option TokenData
  disk : Store
deriving DecidableEq, Repr

/-- Constructor, lines 38-48: remembers the path and loads existing tokens. -/
def mkAuthState (disk : Store) : AuthState :=
  { tokenData := loadTokens disk, disk := disk }

/-- Model of `saveTokens` (lines 68-74): serializes the current record over the file. -/
def saveTokens (d : TokenData) : Store :=
  .record d

/-- Model of `hasValidTokens` (lines 86-92): false with no record, otherwise compares
the expiry against now plus the 60-second buffer. -/
def hasValidTokens (tokenData : Option TokenData) (now : Int) : Bool :=
  match tokenData with
  | none => false
  | some d => decide (d.expires_at > now + 60000)

/-- Errors thrown by the authentication component, one constructor per
distinct `throw new Error(...)` site of spotifyAuth.ts. -/
inductive AuthError where
  | notAuthenticated
  | noRefreshToken
  | refreshFailed
  | authorizationDenied (msg : String)
  | csrfMismatch
  | noAuthorizationCode
  | callbackTimeout
  | exchangeFailed
deriving DecidableEq, Repr

/-- Successful JSON body of the token endpoint for `grant_type=refresh_token`.
`refresh_token` is `none` when the field is absent or null; `some ""` is a
present empty string — both are falsy in the source's `data.refresh_token ||`. -/
structure RefreshResponse where
  access_token : String
  refresh_token : Option String
  expires_in : Int
  token_type : String
  scope : String
deriving DecidableEq, Repr

/-- JavaScript truthiness of a string-or-null value: absent and `""` are falsy. -/
def jsTruthy : Option String → Bool
  | none => false
  | some s => decide (s ≠ "")

/-- JavaScript `a || b` for a string-or-null `a` (line 138): `b` when `a` is
absent or empty. -/
def jsOr (a : Option String) (b : String) : String :=
  match a with
  | none => b
  | some s => if s = "" then b else s

/-- Outcome of one method call: the value returned or the error thrown, the
instance and disk state afterwards, and how many HTTP requests were made to
the token endpoint. -/
structure OpResult (α : Type) where
  result : Except AuthError α
  state : AuthState
  tokenCalls : Nat

/-- Model of `refreshAccessToken` (lines 114-150).  `!this.tokenData?.refresh_token`
throws before any network use when the record is absent or its refresh token
is the empty string; otherwise one POST is made, a failure is rethrown as the
refresh-failed error with nothing mutated, and a success rebuilds the record
(keeping the old refresh token when the response's is absent or empty) and
persists it. -/
def refreshAccessToken (st : AuthState) (now : Int)
    (resp : Except Unit RefreshResponse) : OpResult Unit :=
  match st.tokenData with
  | none => ⟨.error .noRefreshToken, st, 0⟩
  | some d =>
    if d.refresh_token = "" then
      ⟨.error .noRefreshToken, st, 0⟩
    else
      match resp with
      | .error _ => ⟨.error .refreshFailed, st, 1⟩
      | .ok r =>
        let newData : TokenData :=
          { access_token := r.access_token
            refresh_token := jsOr r.refresh_token d.refresh_token
            expires_at := now + r.expires_in * 1000
            token_type := r.token_type
            scope := r.scope }
        ⟨.ok (), ⟨some newData, saveTokens newData⟩, 1⟩

/-- Model of `getAccessToken` (lines 97-109): throws when no record is loaded,
refreshes first when the record is within the 60-second buffer, then returns
the (possibly new) record's access token.  The `none` fallback after a
successful refresh is dead code: a successful refresh always leaves a record. -/
def getAccessToken (st : AuthState) (now : Int)
    (resp : Except Unit RefreshResponse) : OpResult String :=
  match st.tokenData with
  | none => ⟨.error .notAuthenticated, st, 0⟩
  | some d =>
    if d.expires_at ≤ now + 60000 then
      let r := refreshAccessToken st now resp
      match r.result with
      | .error e => ⟨.error e, r.state, r.tokenCalls⟩
      | .ok _ =>
        match r.state.tokenData with
        | some d2 => ⟨.ok d2.access_token, r.state, r.tokenCalls⟩
        | none => ⟨.error .notAuthenticated, r.state, r.tokenCalls⟩
    else ⟨.ok d.access_token, st, 0⟩

/-- File deletion of `clearTokens` (lines 312-318): `existsSync` then
`unlinkSync`, so the file is gone whatever state it was in. -/
def clearStore : Store → Store
  | _ => .missing

/-- Model of `clearTokens` (lines 310-319): drops the in-memory record and deletes the
file; every fault is caught, so the call itself never throws. -/
def clearTokens (st : AuthState) : AuthState :=
  { tokenData := none, disk := clearStore st.disk }

/-- Query parameters of one request received by the callback listener;
`url.searchParams.get` yields `none` for an absent parameter. -/
structure CallbackRequest where
  pathname : String
  code : Option String
  state : Option String
  error : Option String
deriving DecidableEq, Repr

/-- An event that can settle the wait inside `waitForCallback`: an incoming
HTTP request, or the 5-minute timer of lines 261-264 firing. -/
inductive CallbackEvent where
  | request (req : CallbackRequest)
  | timeout
deriving DecidableEq, Repr

/-- Model of `waitForCallback` (lines 183-266) viewed as a function from the settling
event to the settled outcome.  `none` means the event did not settle the
promise (a request whose path is not `/callback` gets no response and leaves
the listener waiting).  A settled outcome is paired with whether
`server.close()` ran before the promise was resolved or rejected. -/
def waitForCallback (expectedState : String) :
    CallbackEvent → Option (Except AuthError String × Bool)
  | .request req =>
    if req.pathname = "/callback" then
      if jsTruthy req.error then
        some (.error (.authorizationDenied (req.error.getD "")), true)
      else if req.state ≠ some expectedState then
        some (.error .csrfMismatch, true)
      else if jsTruthy req.code = false then
        some (.error .noAuthorizationCode, true)
      else
        some (.ok (req.code.getD ""), true)
    else none
  | .timeout => some (.error .callbackTimeout, true)

/-- Successful JSON body of the token endpoint for
`grant_type=authorization_code`; this grant carries a refresh token. -/
structure ExchangeResponse where
  access_token : String
  refresh_token : String
  expires_in : Int
  token_type : String
  scope : String
deriving DecidableEq, Repr

/-- Model of `exchangeCodeForTokens` (lines 271-305): one POST; a failure is rethrown
as the exchange-failed error with nothing mutated; a success builds the
record from the response and persists it. -/
def exchangeCodeForTokens (st : AuthState) (now : Int)
    (resp : Except Unit ExchangeResponse) : OpResult Unit :=
  match resp with
  | .error _ => ⟨.error .exchangeFailed, st, 1⟩
  | .ok r =>
    let newData : TokenData :=
      { access_token := r.access_token
        refresh_token := r.refresh_token
        expires_at := now + r.expires_in * 1000
        token_type := r.token_type
        scope := r.scope }
    ⟨.ok (), ⟨some newData, saveTokens newData⟩, 1⟩

/-- Model of `authenticate` (lines 155-178) after the CSRF state has been generated:
wait for the callback, and only on a resolved code proceed to the exchange.
`none` when the wait is still pending. -/
def authenticate (st : AuthState) (state : String) (event : CallbackEvent)
    (now : Int) (exResp : Except Unit ExchangeResponse) :
    Option (OpResult Unit) :=
  match waitForCallback state event with
  | none => none
  | some (.error e, _) => some ⟨.error e, st, 0⟩
  | some (.ok _, _) => some (exchangeCodeForTokens st now exResp)

/-- Sample record used by concrete instantiations below. -/
def sampleToken : TokenData :=
  { access_token := "A"
    refresh_token := "R1"
    expires_at := 1000
    token_type := "Bearer"
    scope := "user-library-read" }

/-- Instance state holding `sampleToken` both in memory and on disk. -/
def sampleState : AuthState :=
  { tokenData := some sampleToken, disk := .record sampleToken }

/-- Refresh response that omits `refresh_token`. -/
def refreshRespOmit : RefreshResponse :=
  { access_token := "A2"
    refresh_token := none
    expires_in := 3600
    token_type := "Bearer"
    scope := "user-library-read" }

/-- Refresh response carrying the empty string as `refresh_token`. -/
def refreshRespEmpty : RefreshResponse :=
  { refreshRespOmit with refresh_token := some "" }

/-- Refresh response carrying the fresh `refresh_token` `"R2"`. -/
def refreshRespR2 : RefreshResponse :=
  { refreshRespOmit with refresh_token := some "R2" }

/-- C2: `hasValidTokens` is true exactly when a record exists and its
`expires_at` exceeds now plus the 60000 ms buffer — so an absent record or
`expires_at ≤ now + 60000` gives false — and concretely at `now = 1000000`
a record expiring at 1059999 is invalid while one expiring at 1060001 is
valid. -/
theorem C2_validity_buffer (td : Option TokenData) (now : Int) :
    (hasValidTokens td now = true ↔
      ∃ d, td = some d ∧ now + 60000 < d.expires_at) ∧
    hasValidTokens (some { sampleToken with expires_at := 1059999 }) 1000000
      = false ∧
    hasValidTokens (some { sampleToken with expires_at := 1060001 }) 1000000
      = true := by
  refine ⟨?_, by decide, by decide⟩
  cases td with
  | none => simp [hasValidTokens]
  | some d => simp [hasValidTokens]

/-- C8: every faulty store state — file missing, file unreadable, or file
contents unparsable — loads as "absent" (and `loadTokens` is total, so none
of them throws to the caller); consequently a freshly constructed instance
over a missing file has no valid token. -/
theorem C8_absent_store_safe (now : Int) :
    loadTokens .missing = none ∧
    loadTokens .unreadable = none ∧
    loadTokens .malformed = none ∧
    hasValidTokens (mkAuthState .missing).tokenData now = false := by
  refine ⟨rfl, rfl, rfl, ?_⟩
  simp [mkAuthState, loadTokens, hasValidTokens]

/-- C9: `clearTokens` clears the in-memory record, leaves the store absent
from every starting state without throwing (all faults are caught in the
source), and running it twice gives the same state as running it once. -/
theorem C9_logout_idempotent (st : AuthState) :
    (clearTokens st).tokenData = none ∧
    (clearTokens st).disk = .missing ∧
    clearTokens (clearTokens st) = clearTokens st := by
  exact ⟨rfl, rfl, rfl⟩

/-- C10: with no token record at all, `refreshAccessToken` takes the
`noRefreshToken` branch — the same outcome as a record whose refresh token
is empty — rather than `notAuthenticated`, leaves the state untouched and
makes no request to the token endpoint. -/
theorem C10_refresh_without_record (disk : Store) (now : Int)
    (resp : Except Unit RefreshResponse) :
    (refreshAccessToken ⟨none, disk⟩ now resp).result
        = .error .noRefreshToken ∧
    (refreshAccessToken ⟨none, disk⟩ now resp).state = ⟨none, disk⟩ ∧
    (refreshAccessToken ⟨none, disk⟩ now resp).tokenCalls = 0 ∧
    (∀ d : TokenData, d.refresh_token = "" →
      (refreshAccessToken ⟨some d, disk⟩ now resp).result
        = .error .noRefreshToken ∧
      (refreshAccessToken ⟨some d, disk⟩ now resp).tokenCalls = 0) := by
  refine ⟨rfl, rfl, rfl, ?_⟩
  intro d hd
  simp [refreshAccessToken, hd]

/-- C1: `getAccessToken` fails with `notAuthenticated` after zero
token-endpoint requests when no record exists; with a record strictly beyond
the 60-second buffer it returns the stored access token after zero requests
and with nothing mutated; with a record inside the buffer, a usable refresh
token and a successful refresh response it makes exactly one request and
returns the response's new access token. -/
theorem C1_getAccessToken_cases (st : AuthState) (now : Int)
    (resp : Except Unit RefreshResponse) :
    (st.tokenData = none →
      getAccessToken st now resp = ⟨.error .notAuthenticated, st, 0⟩) ∧
    (∀ d, st.tokenData = some d → now + 60000 < d.expires_at →
      getAccessToken st now resp = ⟨.ok d.access_token, st, 0⟩) ∧
    (∀ d r, st.tokenData = some d → d.expires_at ≤ now + 60000 →
      d.refresh_token ≠ "" → resp = .ok r →
      (getAccessToken st now resp).result = .ok r.access_token ∧
      (getAccessToken st now resp).tokenCalls = 1) := by
  refine ⟨?_, ?_, ?_⟩
  · intro h
    simp [getAccessToken, h]
  · intro d hd hlt
    simp [getAccessToken, hd, not_le.mpr hlt]
  · intro d r hd hle hrt hresp
    subst hresp
    simp [getAccessToken, refreshAccessToken, hd, hle, hrt]

/-- C1 witness: the stale-record clause instantiated at `sampleToken`
(expiry 1000, clock 1000000) with a successful refresh response. -/
theorem C1_witness :
    (getAccessToken sampleState 1000000 (.ok refreshRespOmit)).result
        = .ok "A2" ∧
    (getAccessToken sampleState 1000000 (.ok refreshRespOmit)).tokenCalls
        = 1 :=
  (C1_getAccessToken_cases sampleState 1000000 (.ok refreshRespOmit)).2.2
    sampleToken refreshRespOmit rfl (by decide) (by decide) rfl

/-- C3 counterexample: the claim quantifies over every successful refresh
response, and JSON admits an empty-string `refresh_token`.  On the response
`refreshRespEmpty`, which carries `refresh_token = some ""`, the claim says
the persisted record holds the carried value `""`; the source's
`data.refresh_token || this.tokenData.refresh_token` treats `""` as falsy
and keeps `"R1"` instead. -/
theorem C3_counterexample :
    refreshRespEmpty.refresh_token = some "" ∧
    (refreshAccessToken sampleState 1000000
        (.ok refreshRespEmpty)).state.tokenData =
      some { access_token := "A2"
             refresh_token := "R1"
             expires_at := 4600000
             token_type := "Bearer"
             scope := "user-library-read" } ∧
    ("R1" : String) ≠ "" := by
  refine ⟨rfl, ?_, by decide⟩
  decide

/-- C3 (amended): on a successful refresh over a record with refresh token
R1, the record persisted both in memory and on disk takes `access_token`,
`token_type` and `scope` from the response, recomputes `expires_at` as the
exchange time plus `expires_in * 1000`, keeps `refresh_token = R1` when the
response's `refresh_token` is absent or empty, and takes the response's
non-empty `refresh_token` R2 otherwise. -/
theorem C3_refresh_token_rule (st : AuthState) (d : TokenData) (now : Int)
    (r : RefreshResponse) (hd : st.tokenData = some d)
    (hrt : d.refresh_token ≠ "") :
    ∃ d2,
      (refreshAccessToken st now (.ok r)).result = .ok () ∧
      (refreshAccessToken st now (.ok r)).state.tokenData = some d2 ∧
      (refreshAccessToken st now (.ok r)).state.disk = saveTokens d2 ∧
      d2.access_token = r.access_token ∧
      d2.token_type = r.token_type ∧
      d2.scope = r.scope ∧
      d2.expires_at = now + r.expires_in * 1000 ∧
      ((r.refresh_token = none ∨ r.refresh_token = some "") →
        d2.refresh_token = d.refresh_token) ∧
      (∀ s, r.refresh_token = some s → s ≠ "" → d2.refresh_token = s) := by
  refine ⟨{ access_token := r.access_token
            refresh_token := jsOr r.refresh_token d.refresh_token
            expires_at := now + r.expires_in * 1000
            token_type := r.token_type
            scope := r.scope },
    ?_, ?_, ?_, rfl, rfl, rfl, rfl, ?_, ?_⟩
  · simp [refreshAccessToken, hd, hrt]
  · simp [refreshAccessToken, hd, hrt]
  · simp [refreshAccessToken, hd, hrt, saveTokens]
  · intro h
    rcases h with h | h <;> simp [jsOr, h]
  · intro s hs hne
    simp [jsOr, hs, hne]

/-- C3 witness: the amended rule instantiated at `sampleState` with the
response carrying the non-empty refresh token `"R2"`. -/
theorem C3_witness :
    ∃ d2,
      (refreshAccessToken sampleState 1000000
          (.ok refreshRespR2)).result = .ok () ∧
      (refreshAccessToken sampleState 1000000
          (.ok refreshRespR2)).state.tokenData = some d2 ∧
      (refreshAccessToken sampleState 1000000
          (.ok refreshRespR2)).state.disk = saveTokens d2 ∧
      d2.access_token = refreshRespR2.access_token ∧
      d2.token_type = refreshRespR2.token_type ∧
      d2.scope = refreshRespR2.scope ∧
      d2.expires_at = 1000000 + refreshRespR2.expires_in * 1000 ∧
      ((refreshRespR2.refresh_token = none ∨
          refreshRespR2.refresh_token = some "") →
        d2.refresh_token = sampleToken.refresh_token) ∧
      (∀ s, refreshRespR2.refresh_token = some s → s ≠ "" →
        d2.refresh_token = s) :=
  C3_refresh_token_rule sampleState sampleToken 1000000 refreshRespR2 rfl
    (by decide)

/-- C4: a callback request to `/callback` with no (truthy) error parameter
and a state differing from the expected CSRF state makes `authenticate` fail
with `csrfMismatch`, with zero requests to the token endpoint (the code
exchange is never reached) and the stored record untouched. -/
theorem C4_csrf_mismatch_stops_flow (st : AuthState) (S : String)
    (req : CallbackRequest) (now : Int)
    (exResp : Except Unit ExchangeResponse)
    (hpath : req.pathname = "/callback")
    (herr : jsTruthy req.error = false)
    (hstate : req.state ≠ some S) :
    authenticate st S (.request req) now exResp
      = some ⟨.error .csrfMismatch, st, 0⟩ := by
  simp [authenticate, waitForCallback, hpath, herr, hstate]

/-- C4 witness: a concrete mismatched callback (expected state `"good"`,
delivered state `"evil"`) aborts with `csrfMismatch`, zero exchange calls. -/
theorem C4_witness :
    authenticate sampleState "good"
        (.request { pathname := "/callback", code := some "c",
                    state := some "evil", error := none })
        0 (.ok { access_token := "X", refresh_token := "Y",
                 expires_in := 3600, token_type := "Bearer",
                 scope := "user-library-read" })
      = some ⟨.error .csrfMismatch, sampleState, 0⟩ :=
  C4_csrf_mismatch_stops_flow sampleState "good"
    { pathname := "/callback", code := some "c", state := some "evil",
      error := none }
    0 (.ok { access_token := "X", refresh_token := "Y", expires_in := 3600,
             token_type := "Bearer", scope := "user-library-read" })
    rfl rfl (by decide)

/-- C5: when the record has a usable refresh token and the token endpoint
answers with an HTTP or network failure, `refreshAccessToken` fails with
`refreshFailed` after exactly one request (no retry) and the stored record
is unchanged both in memory and on disk. -/
theorem C5_refresh_failure_preserves_record (st : AuthState) (d : TokenData)
    (now : Int) (hd : st.tokenData = some d) (hrt : d.refresh_token ≠ "") :
    (refreshAccessToken st now (.error ())).result = .error .refreshFailed ∧
    (refreshAccessToken st now (.error ())).state = st ∧
    (refreshAccessToken st now (.error ())).tokenCalls = 1 := by
  simp [refreshAccessToken, hd, hrt]

/-- C5 witness: a failing refresh over `sampleState` leaves the state intact
after one attempt. -/
theorem C5_witness :
    (refreshAccessToken sampleState 1000000 (.error ())).result
        = .error .refreshFailed ∧
    (refreshAccessToken sampleState 1000000 (.error ())).state
        = sampleState ∧
    (refreshAccessToken sampleState 1000000 (.error ())).tokenCalls = 1 :=
  C5_refresh_failure_preserves_record sampleState sampleToken 1000000 rfl
    (by decide)

/-- C6: every event that settles the callback wait — success, error
parameter, state mismatch, missing code, or the 5-minute timeout — does so
with `server.close()` already run: no settled outcome leaves the listener
bound. -/
theorem C6_listener_closed (S : String) (ev : CallbackEvent)
    (out : Except AuthError String) (closed : Bool)
    (h : waitForCallback S ev = some (out, closed)) : closed = true := by
  cases ev with
  | timeout =>
    simp [waitForCallback] at h
    exact h.2
  | request req =>
    by_cases hpath : req.pathname = "/callback"
    · by_cases herr : jsTruthy req.error
      · simp [waitForCallback, hpath, herr] at h
        exact h.2
      · by_cases hstate : req.state = some S
        · by_cases hcode : jsTruthy req.code
          · simp [waitForCallback, hpath, herr, hstate, hcode] at h
            exact h.2
          · simp [waitForCallback, hpath, herr, hstate, hcode] at h
            exact h.2
        · simp [waitForCallback, hpath, herr, hstate] at h
          exact h.2
    · simp [waitForCallback, hpath] at h

/-- C6 witness: the timeout event settles the wait with the listener
closed. -/
theorem C6_witness :
    waitForCallback "s" .timeout
        = some (.error .callbackTimeout, true) ∧
    (true : Bool) = true :=
  ⟨rfl, C6_listener_closed "s" .timeout (.error .callbackTimeout) true rfl⟩

/-- Record far from expiry, used by the C7 instantiations. -/
def sampleFresh : TokenData :=
  { sampleToken with expires_at := 100000000 }

/-- C7 counterexample: `hasValidTokens` reads the in-memory field loaded at
construction, not the store.  An instance whose record was loaded before the
token file was removed (the file is documented as shared with other
processes) answers `true` while loading the store at that moment yields no
record — so the claim's "true iff loading the token store at that moment
yields a valid record" fails at this concrete state. -/
theorem C7_counterexample :
    hasValidTokens (AuthState.mk (some sampleFresh) .missing).tokenData 0
        = true ∧
    loadTokens (AuthState.mk (some sampleFresh) .missing).disk = none := by
  exact ⟨by decide, rfl⟩

/-- C7 (amended): `hasValidTokens` is a pure function of the in-memory
record and the clock — it performs no I/O at call time — and whenever the
in-memory record agrees with the store's contents (as it does on a freshly
constructed instance) its answer is true exactly when loading the store
yields a record satisfying the validity invariant. -/
theorem C7_hasValidTokens_reflects_load (st : AuthState) (now : Int)
    (hsync : st.tokenData = loadTokens st.disk) :
    hasValidTokens st.tokenData now = true ↔
      ∃ d, loadTokens st.disk = some d ∧ now + 60000 < d.expires_at := by
  rw [← hsync]
  cases htd : st.tokenData with
  | none => simp [hasValidTokens]
  | some d => simp [hasValidTokens]

/-- C7 witness: a freshly constructed instance over a stored fresh record
answers `true` at clock 0, via the amended equivalence. -/
theorem C7_witness :
    hasValidTokens (mkAuthState (.record sampleFresh)).tokenData 0 = true :=
  (C7_hasValidTokens_reflects_load (mkAuthState (.record sampleFresh)) 0
      rfl).mpr ⟨sampleFresh, rfl, by decide⟩

/-- C10 witness: the theorem instantiated at a concrete empty-refresh-token
record. -/
theorem C10_witness :
    (refreshAccessToken ⟨some { sampleToken with refresh_token := "" },
        Store.missing⟩ 0 (.error ())).result = .error .noRefreshToken ∧
    (refreshAccessToken ⟨some { sampleToken with refresh_token := "" },
        Store.missing⟩ 0 (.error ())).tokenCalls = 0 :=
  (C10_refresh_without_record Store.missing 0 (.error ())).2.2.2
    { sampleToken with refresh_token := "" } rfl

end SpotifyAuth
